import Mathlib

/-!
# dde-widgets: the notification bubble item

A shallow embedding of `src/notification/bubbleitem.cpp` (classes `AlphaWidget`,
`BubbleItem` and `BubbleBase`).  Widgets become records of the members the
handlers read and write, every slot or event handler becomes a function from
the record before the call to the record after it, and the calls that leave the
class (`BubbleTool::actionInvoke`, the `SignalBridge` signal, the view's removal
animation, the `bubbleRemove` signal) are appended to an effect log carried in
the record.  A null pointer dereference ends the process: a handler that runs
into one sets `faulted`, the constructor returns an error.

Collaborators whose code is outside the file (`BubbleTool`, `OSD`, `QDateTime`,
`NotifyModel`) are parameters.
-/

namespace DdeWidgets

/-! ## Qt value types -/

/-- QString.  Qt tells a null string (default constructed, or cleared) from an
empty one that is not null; `isEmpty` holds for both, `isNull` for the first. -/
inductive QString where
  | null : QString
  | str (s : String) : QString
deriving DecidableEq, Repr

/-- Embeds `QString::isNull`. -/
def QString.isNull : QString → Bool
  | .null => true
  | .str _ => false

/-- Embeds `QString::isEmpty`: the string has no characters. -/
def QString.isEmpty : QString → Bool
  | .null => true
  | .str s => s.isEmpty

/-- Embeds `QString::clear`: the string becomes a null string. -/
def QString.clear (_ : QString) : QString := .null

/-- QPoint: integer coordinates, compared componentwise by `operator==`. -/
structure QPoint where
  x : Int
  y : Int
deriving DecidableEq, Repr

/-- Value of `Qt::Key_Return`. -/
def Qt.Key_Return : Int := 0x01000004

/-- Conversion of a wider integer to C++ `int` (32 bit, two's complement). -/
def toInt (x : Int) : Int := (x + 2 ^ 31) % 2 ^ 32 - 2 ^ 31

/-- Arithmetic on `qint64` (64 bit, two's complement). -/
def toInt64 (x : Int) : Int := (x + 2 ^ 63) % 2 ^ 64 - 2 ^ 63

/-- Function `tr`: the source-language text (no translation catalogue is applied). -/
def tr (s : String) : String := s

/-- Replace every place marker `%1` in a character list. -/
def replaceMarker (r : List Char) : List Char → List Char
  | '%' :: '1' :: rest => r ++ replaceMarker r rest
  | c :: rest => c :: replaceMarker r rest
  | [] => []

/-- Embeds `QString::arg(int)` on a text whose only place marker is `%1`: the marker is
replaced by the decimal rendering of the number. -/
def arg (text : String) (n : Int) : String :=
  String.mk (replaceMarker (toString n).data text.data)

/-! ## Notification entity -/

/-- NotificationEntity: the fields the bubble reads.  `ctime` is the value of
`ctime().toLongLong()`, milliseconds since the epoch. -/
structure NotificationEntity where
  id : Nat
  appName : String
  summary : String
  body : String
  ctime : Int
  actions : List String
deriving DecidableEq, Repr

/-- EntityPtr: a shared pointer, `none` is the null pointer. -/
abbrev EntityPtr := Option NotificationEntity

/-! ## Calls that leave the class -/

/-- The outward calls a handler makes, in order. -/
inductive Effect where
  /-- Call of `BubbleTool::actionInvoke(actionId, entity)`. -/
  | actionInvoke (actionId : QString) (entity : EntityPtr) : Effect
  /-- Emission `Q_EMIT SignalBridge::ref().actionInvoked(entityId, actionId)`. -/
  | actionInvoked (entityId : Nat) (actionId : QString) : Effect
  /-- Call of `m_view->createRemoveAnimation(this)`. -/
  | createRemoveAnimation : Effect
  /-- Emission `Q_EMIT bubbleRemove()`. -/
  | bubbleRemove : Effect
deriving DecidableEq, Repr

/-- The action ids passed to `BubbleTool::actionInvoke`, in call order. -/
def invokedIds : List Effect → List QString
  | [] => []
  | .actionInvoke a _ :: rest => a :: invokedIds rest
  | _ :: rest => invokedIds rest

/-! ## Widgets -/

/-- AlphaWidget: the focus flag and the number of repaints requested by
`update()`. -/
structure AlphaWidget where
  m_hasFocus : Bool
  updates : Nat
deriving DecidableEq, Repr

/-- Embeds `AlphaWidget::setHasFocus`. -/
def AlphaWidget.setHasFocus (w : AlphaWidget) (focus : Bool) : AlphaWidget :=
  if w.m_hasFocus = focus then w
  else { w with m_hasFocus := focus, updates := w.updates + 1 }

/-- A button of the title bar (CicleIconButton): explicit visibility, keyboard
focus, and whether its focus policy is `Qt::TabFocus`. -/
structure IconButton where
  visible : Bool
  hasFocus : Bool
  tabFocus : Bool
deriving DecidableEq, Repr

/-- A text label: its text and explicit visibility. -/
structure Label where
  text : String
  visible : Bool
deriving DecidableEq, Repr

/-- AppBody: title and text. -/
structure AppBody where
  title : String
  text : String
deriving DecidableEq, Repr

/-- The objects an event filter of the bubble can be watching, also the
elements of the tab order. -/
inductive Widget where
  | self : Widget
  | settingBtn : Widget
  | closeButton : Widget
  | actionBtn (i : Nat) : Widget
  | other : Widget
deriving DecidableEq, Repr

/-- The event types `eventFilter` switches on. -/
inductive EventType where
  | FocusIn : EventType
  | FocusOut : EventType
  | Enter : EventType
  | Leave : EventType
  | Other : EventType
deriving DecidableEq, Repr

/-- Why a call ended the process. -/
inductive Fault where
  | nullDereference : Fault
deriving DecidableEq, Repr

/-! ## Collaborators -/

/-- The clock and calendar as `onRefreshTime` sees them. -/
structure Clock where
  /-- Value of `QDateTime::currentMSecsSinceEpoch()`. -/
  currentMSecsSinceEpoch : Int
  /-- Embeds `int(QDateTime::fromMSecsSinceEpoch(t).daysTo(QDateTime::currentDateTime()))`. -/
  daysTo : Int → Int
  /-- Value of `QDateTime::fromMSecsSinceEpoch(t).toString(pattern)`. -/
  toString : Int → String → String

/-- Helper functions defined outside the file, and the members the header
initialises. -/
structure Env where
  /-- Function `BubbleTool::processActions`: the default action id it returns and the
  number of buttons it leaves in the action button bar. -/
  processActions : List String → QString × Nat
  /-- Function `OSD::removeHTML`. -/
  removeHTML : String → String
  /-- Function `BubbleTool::getDeepinAppName`. -/
  getDeepinAppName : String → String
  clock : Clock
  /-- Initial value of `m_showContent`. -/
  showContent : Bool
  /-- Initial value of `m_isOverlapWidget`. -/
  isOverlapWidget : Bool

/-! ## BubbleBase -/

/-- BubbleBase: the two title-bar buttons, the app name, and whether the model
and view pointers are set (non-null). -/
structure BubbleBase where
  m_closeButton : IconButton
  m_settingBtn : IconButton
  m_appName : String
  m_model : Bool
  m_view : Bool
  tabOrder : List Widget
deriving DecidableEq, Repr

/-- Embeds `BubbleBase::BubbleBase`: the member initialiser `m_appName(entity->appName())`
dereferences the entity pointer.  The model and view pointers are null until
`setParentModel` and `setParentView` set them. -/
def BubbleBase.ctor (entity : EntityPtr) : Except Fault BubbleBase :=
  match entity with
  | none => .error .nullDereference
  | some e =>
    .ok { m_closeButton := { visible := true, hasFocus := false, tabFocus := false },
          m_settingBtn := { visible := true, hasFocus := false, tabFocus := false },
          m_appName := e.appName,
          m_model := false,
          m_view := false,
          tabOrder := [] }

/-- Embeds `BubbleBase::setParentModel`. -/
def BubbleBase.setParentModel (b : BubbleBase) : BubbleBase :=
  { b with m_model := true }

/-- Embeds `BubbleBase::setParentView`. -/
def BubbleBase.setParentView (b : BubbleBase) : BubbleBase :=
  { b with m_view := true }

/-- The operations of NotifyModel that `toggleAppTopping` calls, over a model
state `M`. -/
structure NotifyModelOps (M : Type) where
  isAppTopping : M → String → Bool
  setAppTopping : M → String → Bool → M
  refreshAppTopping : M → M

/-- Embeds `BubbleBase::toggleAppTopping`, as a function on the model state; `none`
when `m_model` is null. -/
def BubbleBase.toggleAppTopping {M : Type} (ops : NotifyModelOps M) (b : BubbleBase)
    (model : M) : Option M :=
  if b.m_model then
    let isTopping := ops.isAppTopping model b.m_appName
    let model1 := ops.setAppTopping model b.m_appName (!isTopping)
    some (ops.refreshAppTopping model1)
  else none

/-- Modelled from the spec: NotifyModel's pinned-app set (the class is declared
in notifymodel.h, outside the sources).  The state is the list of pinned app
names; `setAppTopping` adds or removes a name; `refreshAppTopping` re-sorts the
displayed notifications and leaves the set as it is. -/
def pinnedSet : NotifyModelOps (List String) where
  isAppTopping := fun m a => decide (a ∈ m)
  setAppTopping := fun m a v => if v then a :: m else m.filter (fun x => decide (x ≠ a))
  refreshAppTopping := fun m => m

/-! ## BubbleItem -/

/-- BubbleItem: a BubbleBase with the members of the concrete bubble.
`hasFocus` is the keyboard focus of the bubble widget itself, `contentConnected`
records that the `connect` calls of `initContent` were made, `effects` is the
log of outward calls and `faulted` records a null pointer dereference. -/
structure BubbleItem extends BubbleBase where
  m_entity : EntityPtr
  m_bgWidget : AlphaWidget
  m_appNameLabel : String
  m_appTimeLabel : Label
  m_body : AppBody
  m_actionButtons : Nat
  m_defaultAction : QString
  m_actionId : QString
  m_pressPoint : QPoint
  m_showContent : Bool
  m_isOverlapWidget : Bool
  hasFocus : Bool
  contentConnected : Bool
  effects : List Effect
  faulted : Bool
deriving DecidableEq, Repr

/-- Embeds `BubbleItem::onRefreshTime`. -/
def BubbleItem.onRefreshTime (clk : Clock) (s : BubbleItem) : BubbleItem :=
  match s.m_entity with
  | none => { s with faulted := true }
  | some e =>
    let msec := toInt64 (clk.currentMSecsSinceEpoch - e.ctime)
    if msec < 0 then s
    else
      let elapsedDay := clk.daysTo e.ctime
      let minute := toInt (Int.tdiv (Int.tdiv msec 1000) 60)
      let text :=
        if elapsedDay = 0 then
          if minute = 0 then tr "Just now"
          else if minute > 0 ∧ minute < 60 then arg (tr "%1 minutes ago") minute
          else arg (tr "%1 hours ago") (Int.tdiv minute 60)
        else if elapsedDay ≥ 1 ∧ elapsedDay < 2 then
          tr "Yesterday " ++ " " ++ clk.toString e.ctime "hh:mm"
        else if elapsedDay ≥ 2 ∧ elapsedDay < 7 then
          clk.toString e.ctime "ddd hh:mm"
        else
          clk.toString e.ctime "yyyy/MM/dd"
      { s with m_appTimeLabel := { s.m_appTimeLabel with text := text } }

/-- Embeds `BubbleItem::onCloseBubble`: dereferences `m_view`. -/
def BubbleItem.onCloseBubble (s : BubbleItem) : BubbleItem :=
  if s.m_view then
    { s with effects := s.effects ++ [Effect.createRemoveAnimation, Effect.bubbleRemove] }
  else { s with faulted := true }

/-- The handler `initContent` connects to `ActionButton::buttonClicked`. -/
def BubbleItem.onButtonClicked (s : BubbleItem) (id : QString) : BubbleItem :=
  let s1 := { s with m_actionId := id }
  if s1.m_model then s1.onCloseBubble else s1

/-- Embeds `BubbleItem::initUI`, the part that touches the members of the record: both
buttons are hidden, the default action comes from `processActions`, which is
handed `m_entity->actions()`. -/
def BubbleItem.initUI (env : Env) (s : BubbleItem) : Except Fault BubbleItem :=
  let s1 := { s with m_closeButton := { s.m_closeButton with visible := false } }
  let s2 := { s1 with m_settingBtn := { s1.m_settingBtn with visible := false } }
  match s2.m_entity with
  | none => .error .nullDereference
  | some e =>
    .ok { s2 with m_defaultAction := (env.processActions e.actions).1,
                  m_actionButtons := (env.processActions e.actions).2 }

/-- Embeds `BubbleItem::initContent`. -/
def BubbleItem.initContent (env : Env) (s : BubbleItem) : BubbleItem :=
  match s.m_entity with
  | none => s
  | some e =>
    let s1 := { s with m_body := { s.m_body with title := e.summary } }
    let s2 := { s1 with m_body := { s1.m_body with text := env.removeHTML e.body } }
    let s3 := { s2 with m_appNameLabel := env.getDeepinAppName e.appName }
    let s4 := s3.onRefreshTime env.clock
    { s4 with contentConnected := true }

/-- Embeds `BubbleItem::bubbleElements`: the elements of the base class followed by the
action buttons. -/
def BubbleItem.bubbleElements (s : BubbleItem) : List Widget :=
  [Widget.settingBtn, Widget.closeButton] ++ (List.range s.m_actionButtons).map Widget.actionBtn

/-- Embeds `BubbleBase::updateTabOrder` on a bubble item: every element after the
bubble itself gets the tab focus policy and follows its predecessor in the tab
order. -/
def BubbleItem.updateTabOrder (s : BubbleItem) : BubbleItem :=
  let focusElements := Widget.self :: s.bubbleElements
  { s with m_settingBtn := { s.m_settingBtn with tabFocus := true },
           m_closeButton := { s.m_closeButton with tabFocus := true },
           tabOrder := focusElements }

/-- Embeds `BubbleItem::BubbleItem`: the base class constructor, the member
initialisers, then `initUI`, `initContent` and `updateTabOrder`. -/
def BubbleItem.ctor (env : Env) (entity : EntityPtr) : Except Fault BubbleItem :=
  match BubbleBase.ctor entity with
  | .error f => .error f
  | .ok base =>
    let s0 : BubbleItem :=
      { toBubbleBase := base,
        m_entity := entity,
        m_bgWidget := { m_hasFocus := false, updates := 0 },
        m_appNameLabel := "",
        m_appTimeLabel := { text := "", visible := true },
        m_body := { title := "", text := "" },
        m_actionButtons := 0,
        m_defaultAction := .null,
        m_actionId := .null,
        m_pressPoint := { x := 0, y := 0 },
        m_showContent := env.showContent,
        m_isOverlapWidget := env.isOverlapWidget,
        hasFocus := false,
        contentConnected := false,
        effects := [],
        faulted := false }
    match s0.initUI env with
    | .error f => .error f
    | .ok s1 => .ok (s1.initContent env).updateTabOrder

/-- Embeds `BubbleItem::setOverlapWidget`. -/
def BubbleItem.setOverlapWidget (s : BubbleItem) (isOverlap : Bool) : BubbleItem :=
  { s with m_isOverlapWidget := isOverlap }

/-- Embeds `BubbleItem::mousePressEvent`; the base class handler it ends with touches
none of the members. -/
def BubbleItem.mousePressEvent (s : BubbleItem) (pos : QPoint) : BubbleItem :=
  { s with m_pressPoint := pos }

/-- Embeds `BubbleItem::mouseReleaseEvent`; the base class handlers it ends with touch
none of the members. -/
def BubbleItem.mouseReleaseEvent (s : BubbleItem) (pos : QPoint) : BubbleItem :=
  if s.m_isOverlapWidget then s
  else
    if s.m_pressPoint = pos then
      if !s.m_defaultAction.isEmpty then
        let s1 := { s with effects := s.effects ++ [Effect.actionInvoke s.m_defaultAction s.m_entity] }
        let s2 := { s1 with m_defaultAction := s1.m_defaultAction.clear }
        if s2.m_model then s2.onCloseBubble else s2
      else s
    else s

/-- Embeds `BubbleItem::keyPressEvent`; the base class handlers it ends with touch none
of the members. -/
def BubbleItem.keyPressEvent (s : BubbleItem) (key : Int) : BubbleItem :=
  if key = Qt.Key_Return then
    if s.m_defaultAction.isNull then s
    else
      let s1 := { s with effects := s.effects ++ [Effect.actionInvoke s.m_defaultAction s.m_entity] }
      let s2 := { s1 with m_defaultAction := s1.m_defaultAction.clear }
      if s2.m_model then s2.onCloseBubble else s2
  else s

/-- Embeds `BubbleItem::onFocusStateChanged`. -/
def BubbleItem.onFocusStateChanged (s : BubbleItem) (focus : Bool) : BubbleItem :=
  if s.m_showContent then
    let s1 := { s with m_closeButton := { s.m_closeButton with visible := focus } }
    let s2 := { s1 with m_settingBtn := { s1.m_settingBtn with visible := focus } }
    let s3 := { s2 with m_appTimeLabel := { s2.m_appTimeLabel with visible := !focus } }
    { s3 with m_bgWidget := s3.m_bgWidget.setHasFocus focus }
  else s

/-- Embeds `BubbleItem::setParentModel`: sets the model pointer; the handler it connects
to `NotifyModel::removedNotif` is `BubbleItem.onRemovedNotif`. -/
def BubbleItem.setParentModel (s : BubbleItem) : BubbleItem :=
  { s with m_model := true }

/-- The handler `setParentModel` connects to `NotifyModel::removedNotif`. -/
def BubbleItem.onRemovedNotif (s : BubbleItem) : BubbleItem :=
  if !s.m_actionId.isEmpty then
    let s1 := { s with effects := s.effects ++ [Effect.actionInvoke s.m_actionId s.m_entity] }
    match s1.m_entity with
    | none => { s1 with faulted := true }
    | some e => { s1 with effects := s1.effects ++ [Effect.actionInvoked e.id s1.m_actionId] }
  else s

/-- Delivery of `n` successive `removedNotif` broadcasts; a faulted process
handles nothing further. -/
def BubbleItem.removedNotifs : Nat → BubbleItem → BubbleItem
  | 0, s => s
  | n + 1, s => if s.faulted then s else BubbleItem.removedNotifs n s.onRemovedNotif

/-- Embeds `BubbleItem::realHasFocus`. -/
def BubbleItem.realHasFocus (s : BubbleItem) : Bool :=
  s.hasFocus || s.m_settingBtn.hasFocus || s.m_closeButton.hasFocus

/-- The argument with which `BubbleItem::eventFilter` emits `focusStateChanged`,
`none` when it emits nothing. -/
def BubbleItem.eventFilterEmits (s : BubbleItem) (watched : Widget) (ty : EventType) :
    Option Bool :=
  match ty with
  | .FocusIn | .FocusOut =>
    if watched = Widget.self ∨ watched = Widget.settingBtn ∨ watched = Widget.closeButton then
      some s.realHasFocus
    else none
  | .Enter | .Leave =>
    if watched = Widget.self then some (decide (ty = EventType.Enter)) else none
  | .Other => none

/-- Embeds `BubbleItem::eventFilter`: the emitted signal runs `onFocusStateChanged` when
`initContent` connected it. -/
def BubbleItem.eventFilter (s : BubbleItem) (watched : Widget) (ty : EventType) : BubbleItem :=
  match s.eventFilterEmits watched ty with
  | some focus => if s.contentConnected then s.onFocusStateChanged focus else s
  | none => s

/-- The input events of the gesture and key paths. -/
inductive InputEvent where
  | mousePress (pos : QPoint) : InputEvent
  | mouseRelease (pos : QPoint) : InputEvent
  | keyPress (key : Int) : InputEvent
deriving DecidableEq, Repr

/-- Dispatch of one input event to its handler. -/
def BubbleItem.handle (s : BubbleItem) : InputEvent → BubbleItem
  | .mousePress pos => s.mousePressEvent pos
  | .mouseRelease pos => s.mouseReleaseEvent pos
  | .keyPress key => s.keyPressEvent key

/-- Dispatch of a sequence of input events in order; a faulted process handles
nothing further. -/
def BubbleItem.run : BubbleItem → List InputEvent → BubbleItem
  | s, [] => s
  | s, ev :: rest => if s.faulted then s else BubbleItem.run (s.handle ev) rest

/-! ## Concrete inputs -/

/-- An entity created at 2023-11-14 22:13:20 UTC whose action list holds the
default action and a Reply button. -/
def mailEntity : NotificationEntity :=
  { id := 7,
    appName := "mail",
    summary := "New message",
    body := "Hello",
    ctime := 1700000000000,
    actions := ["default", "", "reply", "Reply"] }

/-- A bubble for `mailEntity` as its constructor and the owning view leave it:
model and view set, default action "default", no pending action id. -/
def mailBubble : BubbleItem :=
  { m_closeButton := { visible := false, hasFocus := false, tabFocus := true },
    m_settingBtn := { visible := false, hasFocus := false, tabFocus := true },
    m_appName := "mail",
    m_model := true,
    m_view := true,
    tabOrder := [Widget.self, Widget.settingBtn, Widget.closeButton, Widget.actionBtn 0],
    m_entity := some mailEntity,
    m_bgWidget := { m_hasFocus := false, updates := 0 },
    m_appNameLabel := "mail",
    m_appTimeLabel := { text := "Just now", visible := true },
    m_body := { title := "New message", text := "Hello" },
    m_actionButtons := 1,
    m_defaultAction := QString.str "default",
    m_actionId := QString.null,
    m_pressPoint := { x := 0, y := 0 },
    m_showContent := true,
    m_isOverlapWidget := false,
    hasFocus := false,
    contentConnected := true,
    effects := [],
    faulted := false }

/-- The bubble after its Reply button was clicked: the click stored the action id
"reply" and requested the removal of the bubble. -/
def repliedBubble : BubbleItem := mailBubble.onButtonClicked (QString.str "reply")

/-- The bubble marked as an overlap widget. -/
def overlapBubble : BubbleItem := mailBubble.setOverlapWidget true

/-- The bubble with an empty default action id that is not a null string. -/
def emptyActionBubble : BubbleItem := { mailBubble with m_defaultAction := QString.str "" }

/-- The bubble with its content switched off. -/
def hiddenContentBubble : BubbleItem := { mailBubble with m_showContent := false }

/-- A clock reading `msec` milliseconds after the creation of `mailEntity`, on a
calendar day `days` days later. -/
def clockAfter (msec days : Int) : Clock :=
  { currentMSecsSinceEpoch := mailEntity.ctime + msec,
    daysTo := fun _ => days,
    toString := fun _ pattern =>
      if pattern = "hh:mm" then "22:13"
      else if pattern = "ddd hh:mm" then "Tue 22:13"
      else "2023/11/14" }

/-! ## Auxiliary lemmas -/

theorem invokedIds_append (a b : List Effect) :
    invokedIds (a ++ b) = invokedIds a ++ invokedIds b := by
  induction a with
  | nil => rfl
  | cons e rest ih => cases e <;> simp [invokedIds, ih]

theorem onCloseBubble_invokedIds (s : BubbleItem) :
    invokedIds s.onCloseBubble.effects = invokedIds s.effects := by
  unfold BubbleItem.onCloseBubble
  split <;> simp [invokedIds_append, invokedIds]

theorem onCloseBubble_defaultAction (s : BubbleItem) :
    s.onCloseBubble.m_defaultAction = s.m_defaultAction := by
  unfold BubbleItem.onCloseBubble
  split <;> rfl

theorem onCloseBubble_actionId (s : BubbleItem) :
    s.onCloseBubble.m_actionId = s.m_actionId := by
  unfold BubbleItem.onCloseBubble
  split <;> rfl

theorem isEmpty_of_null {a : QString} (h : a = QString.null) : a.isEmpty = true := by
  subst h
  rfl

theorem isEmpty_null : QString.null.isEmpty = true := rfl

theorem isNull_iff (a : QString) : a.isNull = true ↔ a = QString.null := by
  cases a <;> simp [QString.isNull]

/-- A release either invokes nothing and keeps the default action, or invokes the
default action once and leaves it null. -/
theorem mouseReleaseEvent_step (s : BubbleItem) (pos : QPoint) :
    (invokedIds (s.mouseReleaseEvent pos).effects = invokedIds s.effects ∧
        (s.mouseReleaseEvent pos).m_defaultAction = s.m_defaultAction) ∨
      (invokedIds (s.mouseReleaseEvent pos).effects = invokedIds s.effects ++ [s.m_defaultAction] ∧
        (s.mouseReleaseEvent pos).m_defaultAction = QString.null ∧
        s.m_defaultAction.isEmpty = false) := by
  unfold BubbleItem.mouseReleaseEvent
  by_cases ho : s.m_isOverlapWidget = true
  · simp [ho]
  · by_cases hp : s.m_pressPoint = pos
    · by_cases he : s.m_defaultAction.isEmpty = true
      · simp [ho, hp, he]
      · right
        simp only [ho, hp, he]
        simp only [Bool.not_eq_true] at he
        by_cases hm : s.m_model = true
        · simp [hm, onCloseBubble_invokedIds, onCloseBubble_defaultAction, invokedIds_append,
            invokedIds, QString.clear, he]
        · simp [hm, invokedIds_append, invokedIds, QString.clear, he]
    · simp [ho, hp]

/-- A key press either invokes nothing and keeps the default action, or invokes
the default action once and leaves it null. -/
theorem keyPressEvent_step (s : BubbleItem) (key : Int) :
    (invokedIds (s.keyPressEvent key).effects = invokedIds s.effects ∧
        (s.keyPressEvent key).m_defaultAction = s.m_defaultAction) ∨
      (invokedIds (s.keyPressEvent key).effects = invokedIds s.effects ++ [s.m_defaultAction] ∧
        (s.keyPressEvent key).m_defaultAction = QString.null ∧
        s.m_defaultAction.isNull = false) := by
  unfold BubbleItem.keyPressEvent
  by_cases hk : key = Qt.Key_Return
  · by_cases hn : s.m_defaultAction.isNull = true
    · simp [hk, hn]
    · right
      simp only [Bool.not_eq_true] at hn
      by_cases hm : s.m_model = true
      · simp [hk, hn, hm, onCloseBubble_invokedIds, onCloseBubble_defaultAction,
          invokedIds_append, invokedIds, QString.clear]
      · simp [hk, hn, hm, invokedIds_append, invokedIds, QString.clear]
  · simp [hk]

/-- One input event either invokes nothing and keeps the default action, or
invokes the default action once and leaves it null. -/
theorem handle_step (s : BubbleItem) (ev : InputEvent) :
    (invokedIds (s.handle ev).effects = invokedIds s.effects ∧
        (s.handle ev).m_defaultAction = s.m_defaultAction) ∨
      (invokedIds (s.handle ev).effects = invokedIds s.effects ++ [s.m_defaultAction] ∧
        (s.handle ev).m_defaultAction = QString.null ∧
        s.m_defaultAction ≠ QString.null) := by
  cases ev with
  | mousePress pos => left; exact ⟨rfl, rfl⟩
  | mouseRelease pos =>
    rcases mouseReleaseEvent_step s pos with h | ⟨h1, h2, h3⟩
    · exact Or.inl h
    · refine Or.inr ⟨h1, h2, ?_⟩
      intro hnull
      rw [isEmpty_of_null hnull] at h3
      exact Bool.noConfusion h3
  | keyPress key =>
    rcases keyPressEvent_step s key with h | ⟨h1, h2, h3⟩
    · exact Or.inl h
    · refine Or.inr ⟨h1, h2, ?_⟩
      intro hnull
      rw [(isNull_iff _).mpr hnull] at h3
      exact Bool.noConfusion h3

/-- Once the default action is null no input event invokes anything. -/
theorem run_of_null (evs : List InputEvent) (s : BubbleItem)
    (h : s.m_defaultAction = QString.null) :
    invokedIds (s.run evs).effects = invokedIds s.effects ∧
      (s.run evs).m_defaultAction = QString.null := by
  induction evs generalizing s with
  | nil => exact ⟨rfl, h⟩
  | cons ev rest ih =>
    unfold BubbleItem.run
    by_cases hf : s.faulted = true
    · simp [hf, h]
    · rw [if_neg hf]
      rcases handle_step s ev with ⟨h1, h2⟩ | ⟨_, _, h3⟩
      · have := ih (s.handle ev) (h2.trans h)
        exact ⟨this.1.trans h1, this.2⟩
      · exact absurd h h3

/-- Over a whole sequence of input events: nothing is invoked and the default
action is kept, or the default action is invoked once and left null. -/
theorem run_step (evs : List InputEvent) (s : BubbleItem) :
    (invokedIds (s.run evs).effects = invokedIds s.effects ∧
        (s.run evs).m_defaultAction = s.m_defaultAction) ∨
      (invokedIds (s.run evs).effects = invokedIds s.effects ++ [s.m_defaultAction] ∧
        (s.run evs).m_defaultAction = QString.null) := by
  induction evs generalizing s with
  | nil => exact Or.inl ⟨rfl, rfl⟩
  | cons ev rest ih =>
    unfold BubbleItem.run
    by_cases hf : s.faulted = true
    · simp [hf]
    · rw [if_neg hf]
      rcases handle_step s ev with ⟨h1, h2⟩ | ⟨h1, h2, _⟩
      · rcases ih (s.handle ev) with ⟨k1, k2⟩ | ⟨k1, k2⟩
        · exact Or.inl ⟨k1.trans h1, k2.trans h2⟩
        · exact Or.inr ⟨by rw [k1, h1, h2], k2⟩
      · have := run_of_null rest (s.handle ev) h2
        exact Or.inr ⟨this.1.trans h1, this.2⟩

/-- Every broadcast delivered to a bubble with a non-empty pending action id and
an entity invokes that id again: the handler never changes `m_actionId`. -/
theorem removedNotifs_invokedIds (n : Nat) (s : BubbleItem) (e : NotificationEntity)
    (hid : s.m_actionId.isEmpty = false) (hent : s.m_entity = some e)
    (hlive : s.faulted = false) :
    invokedIds (s.removedNotifs n).effects
        = invokedIds s.effects ++ List.replicate n s.m_actionId ∧
      (s.removedNotifs n).m_actionId = s.m_actionId := by
  induction n generalizing s with
  | zero => simp [BubbleItem.removedNotifs]
  | succ k ih =>
    have hstep : s.onRemovedNotif =
        { s with effects := (s.effects ++ [Effect.actionInvoke s.m_actionId s.m_entity])
                    ++ [Effect.actionInvoked e.id s.m_actionId] } := by
      simp [BubbleItem.onRemovedNotif, hid, hent]
    have h := ih s.onRemovedNotif (by rw [hstep]; exact hid) (by rw [hstep]; exact hent)
      (by rw [hstep]; exact hlive)
    unfold BubbleItem.removedNotifs
    rw [if_neg (by simp [hlive])]
    refine ⟨?_, ?_⟩
    · rw [h.1, hstep]
      simp [invokedIds_append, invokedIds, List.replicate_succ]
    · rw [h.2, hstep]

theorem toInt_of_fits (x : Int) (h0 : 0 ≤ x) (h1 : x < 2 ^ 31) : toInt x = x := by
  unfold toInt
  omega

theorem arg_minutes_ago (n : Int) :
    arg (tr "%1 minutes ago") n = toString n ++ " minutes ago" := by
  have h : ("%1 minutes ago" : String).data = '%' :: '1' :: " minutes ago".data := by decide
  unfold arg tr
  rw [h]
  apply String.ext
  simp [replaceMarker]

theorem arg_hours_ago (n : Int) :
    arg (tr "%1 hours ago") n = toString n ++ " hours ago" := by
  have h : ("%1 hours ago" : String).data = '%' :: '1' :: " hours ago".data := by decide
  unfold arg tr
  rw [h]
  apply String.ext
  simp [replaceMarker]

/-- The label text `onRefreshTime` sets when the elapsed time is not negative. -/
theorem onRefreshTime_text (clk : Clock) (s : BubbleItem) (e : NotificationEntity)
    (hent : s.m_entity = some e)
    (hnonneg : 0 ≤ toInt64 (clk.currentMSecsSinceEpoch - e.ctime)) :
    (s.onRefreshTime clk).m_appTimeLabel.text =
      if clk.daysTo e.ctime = 0 then
        if toInt (Int.tdiv (Int.tdiv (toInt64 (clk.currentMSecsSinceEpoch - e.ctime)) 1000) 60) = 0
        then tr "Just now"
        else if
          toInt (Int.tdiv (Int.tdiv (toInt64 (clk.currentMSecsSinceEpoch - e.ctime)) 1000) 60) > 0 ∧
          toInt (Int.tdiv (Int.tdiv (toInt64 (clk.currentMSecsSinceEpoch - e.ctime)) 1000) 60) < 60
        then arg (tr "%1 minutes ago")
          (toInt (Int.tdiv (Int.tdiv (toInt64 (clk.currentMSecsSinceEpoch - e.ctime)) 1000) 60))
        else arg (tr "%1 hours ago") (Int.tdiv
          (toInt (Int.tdiv (Int.tdiv (toInt64 (clk.currentMSecsSinceEpoch - e.ctime)) 1000) 60)) 60)
      else if clk.daysTo e.ctime ≥ 1 ∧ clk.daysTo e.ctime < 2 then
        tr "Yesterday " ++ " " ++ clk.toString e.ctime "hh:mm"
      else if clk.daysTo e.ctime ≥ 2 ∧ clk.daysTo e.ctime < 7 then
        clk.toString e.ctime "ddd hh:mm"
      else clk.toString e.ctime "yyyy/MM/dd" := by
  unfold BubbleItem.onRefreshTime
  rw [hent]
  simp only [not_lt.mpr hnonneg, if_false]

/-! ## Pending action on the removal broadcast -/

/-- C1, the code at the failing input: a bubble whose Reply button stored the
pending action id "reply" invokes it on every `removedNotif` broadcast, not on
the first only. After `n` broadcasts `BubbleTool::actionInvoke` has been called
`n` times with "reply" and the stored id is still "reply"; two broadcasts after
the removal request give two invocations and two `actionInvoked` signals. -/
theorem removedNotif_invokes_on_every_broadcast (n : Nat) :
    invokedIds (repliedBubble.removedNotifs n).effects
        = List.replicate n (QString.str "reply") ∧
      (repliedBubble.removedNotifs n).m_actionId = QString.str "reply" ∧
      (repliedBubble.removedNotifs 2).effects =
        [Effect.createRemoveAnimation, Effect.bubbleRemove,
         Effect.actionInvoke (QString.str "reply") (some mailEntity),
         Effect.actionInvoked 7 (QString.str "reply"),
         Effect.actionInvoke (QString.str "reply") (some mailEntity),
         Effect.actionInvoked 7 (QString.str "reply")] := by
  have h := removedNotifs_invokedIds n repliedBubble mailEntity (by decide) (by decide)
    (by decide)
  refine ⟨?_, ?_, by decide⟩
  · rw [h.1]
    have h0 : invokedIds repliedBubble.effects = [] := by decide
    have h1 : repliedBubble.m_actionId = QString.str "reply" := by decide
    rw [h0, h1]
    rfl
  · rw [h.2]
    decide

/-! ## Tap and Return key -/

/-- C2, claim refuted as stated: on a bubble marked as an overlap widget a tap
(press and release at the same point) with the non-empty default action
"default" invokes nothing and leaves the default action in place. -/
theorem tap_on_overlap_widget_invokes_nothing :
    overlapBubble.m_defaultAction.isEmpty = false ∧
      ((overlapBubble.mousePressEvent { x := 3, y := 4 }).mouseReleaseEvent
          { x := 3, y := 4 }).effects = [] ∧
      ((overlapBubble.mousePressEvent { x := 3, y := 4 }).mouseReleaseEvent
          { x := 3, y := 4 }).m_defaultAction = QString.str "default" := by
  decide

/-- C2, amended: after `mousePressEvent` at `p` and `mouseReleaseEvent` at `q`, if
the bubble is not an overlap widget, `p = q` and the default action id is
non-empty, then `BubbleTool::actionInvoke` is called exactly once, with that id,
and the default action id is empty afterwards; if `p ≠ q` nothing is invoked
and the default action id is unchanged, in every state. -/
theorem tap_invokes_default_action_once (s : BubbleItem) (p q : QPoint) :
    (s.m_isOverlapWidget = false → p = q → s.m_defaultAction.isEmpty = false →
        invokedIds ((s.mousePressEvent p).mouseReleaseEvent q).effects
            = invokedIds s.effects ++ [s.m_defaultAction] ∧
          ((s.mousePressEvent p).mouseReleaseEvent q).m_defaultAction.isEmpty = true) ∧
      (p ≠ q →
        invokedIds ((s.mousePressEvent p).mouseReleaseEvent q).effects = invokedIds s.effects ∧
          ((s.mousePressEvent p).mouseReleaseEvent q).m_defaultAction = s.m_defaultAction) := by
  constructor
  · intro ho hpq he
    subst hpq
    by_cases hm : s.m_model = true
    · simp [BubbleItem.mousePressEvent, BubbleItem.mouseReleaseEvent, ho, he, hm,
        onCloseBubble_invokedIds, onCloseBubble_defaultAction, invokedIds_append, invokedIds,
        QString.clear, isEmpty_null]
    · simp [BubbleItem.mousePressEvent, BubbleItem.mouseReleaseEvent, ho, he, hm,
        invokedIds_append, invokedIds, QString.clear, isEmpty_null]
  · intro hpq
    by_cases ho : s.m_isOverlapWidget = true
    · simp [BubbleItem.mousePressEvent, BubbleItem.mouseReleaseEvent, ho]
    · simp [BubbleItem.mousePressEvent, BubbleItem.mouseReleaseEvent, ho, hpq]

/-- C2, amended claim at a concrete input: a tap on `mailBubble` at (3, 4) invokes
"default" once and clears it; a drag from (3, 4) to (9, 4) invokes nothing. -/
theorem tap_invokes_default_action_once_witness :
    (invokedIds ((mailBubble.mousePressEvent { x := 3, y := 4 }).mouseReleaseEvent
          { x := 3, y := 4 }).effects = invokedIds mailBubble.effects ++ [mailBubble.m_defaultAction] ∧
        ((mailBubble.mousePressEvent { x := 3, y := 4 }).mouseReleaseEvent
          { x := 3, y := 4 }).m_defaultAction.isEmpty = true) ∧
      (invokedIds ((mailBubble.mousePressEvent { x := 3, y := 4 }).mouseReleaseEvent
          { x := 9, y := 4 }).effects = invokedIds mailBubble.effects ∧
        ((mailBubble.mousePressEvent { x := 3, y := 4 }).mouseReleaseEvent
          { x := 9, y := 4 }).m_defaultAction = mailBubble.m_defaultAction) :=
  ⟨(tap_invokes_default_action_once mailBubble { x := 3, y := 4 } { x := 3, y := 4 }).1
      (by decide) rfl (by decide),
    (tap_invokes_default_action_once mailBubble { x := 3, y := 4 } { x := 9, y := 4 }).2
      (by decide)⟩

/-- C3: over every finite sequence of `mousePressEvent`, `mouseReleaseEvent` and
`keyPressEvent` calls, from every state, `BubbleTool::actionInvoke` is called at
most once by the tap path and the Return-key path together: either nothing is
invoked and the default action id is what it was, or exactly the original
default action id is invoked, once, and the id is a null string afterwards. -/
theorem default_action_invoked_at_most_once (s : BubbleItem) (evs : List InputEvent) :
    (invokedIds (s.run evs).effects).length ≤ (invokedIds s.effects).length + 1 ∧
      ((invokedIds (s.run evs).effects = invokedIds s.effects ∧
          (s.run evs).m_defaultAction = s.m_defaultAction) ∨
        (invokedIds (s.run evs).effects = invokedIds s.effects ++ [s.m_defaultAction] ∧
          (s.run evs).m_defaultAction = QString.null)) := by
  have h := run_step evs s
  refine ⟨?_, h⟩
  rcases h with ⟨h1, _⟩ | ⟨h1, _⟩
  · rw [h1]
    exact Nat.le_succ _
  · rw [h1]
    simp

/-- C9, the code at the failing input: with a default action id that is empty
but not null, the Return key calls `BubbleTool::actionInvoke` with the empty id
and requests removal, while a tap in the same state invokes nothing. -/
theorem return_key_invokes_empty_default_action :
    emptyActionBubble.m_defaultAction.isEmpty = true ∧
      emptyActionBubble.m_defaultAction.isNull = false ∧
      (emptyActionBubble.keyPressEvent Qt.Key_Return).effects =
        [Effect.actionInvoke (QString.str "") (some mailEntity),
         Effect.createRemoveAnimation, Effect.bubbleRemove] ∧
      ((emptyActionBubble.mousePressEvent { x := 3, y := 4 }).mouseReleaseEvent
          { x := 3, y := 4 }).effects = [] := by
  decide

/-! ## Construction -/

/-- C10, the code at the failing input: constructing a bubble from a null entity
pointer ends in a null dereference. The base class constructor reads
`entity->appName()` and `initUI` reads `m_entity->actions()`; only `initContent`
tests the pointer and returns at once. -/
theorem ctor_null_entity_faults (env : Env) (s : BubbleItem) :
    BubbleItem.ctor env none = Except.error Fault.nullDereference ∧
      BubbleBase.ctor none = Except.error Fault.nullDereference ∧
      ({ s with m_entity := none }).initUI env = Except.error Fault.nullDereference ∧
      ({ s with m_entity := none }).initContent env = { s with m_entity := none } :=
  ⟨rfl, rfl, rfl, rfl⟩

/-! ## Relative time label -/

/-- C4: when the elapsed time `msec` is not negative, the entity was created on
the same calendar day as now (`elapsedDay = 0`) and `minute = msec / 1000 / 60`
(which fits C++ `int`, as it does for two instants of one calendar day),
`onRefreshTime` sets the time label to "Just now" when `minute = 0`, to
"<minute> minutes ago" when `0 < minute < 60`, and to "<minute / 60> hours ago"
when `minute ≥ 60`. -/
theorem onRefreshTime_same_day (clk : Clock) (s : BubbleItem) (e : NotificationEntity)
    (msec : Int) (hent : s.m_entity = some e)
    (hmsec : toInt64 (clk.currentMSecsSinceEpoch - e.ctime) = msec)
    (hnonneg : 0 ≤ msec) (hday : clk.daysTo e.ctime = 0)
    (hfit : msec / 1000 / 60 < 2 ^ 31) :
    (s.onRefreshTime clk).m_appTimeLabel.text =
      if msec / 1000 / 60 = 0 then "Just now"
      else if msec / 1000 / 60 < 60 then toString (msec / 1000 / 60) ++ " minutes ago"
      else toString (msec / 1000 / 60 / 60) ++ " hours ago" := by
  have hm0 : 0 ≤ msec / 1000 / 60 := by omega
  have hdiv : Int.tdiv (Int.tdiv msec 1000) 60 = msec / 1000 / 60 := by
    rw [Int.tdiv_eq_ediv hnonneg (by decide), Int.tdiv_eq_ediv (by omega) (by decide)]
  have hmin : toInt (Int.tdiv (Int.tdiv msec 1000) 60) = msec / 1000 / 60 := by
    rw [hdiv]
    exact toInt_of_fits _ hm0 hfit
  have hhour : Int.tdiv (msec / 1000 / 60) 60 = msec / 1000 / 60 / 60 :=
    Int.tdiv_eq_ediv hm0 (by decide)
  rw [onRefreshTime_text clk s e hent (by rw [hmsec]; exact hnonneg), hmsec, hmin, hhour,
    if_pos hday, arg_minutes_ago, arg_hours_ago]
  by_cases h0 : msec / 1000 / 60 = 0
  · simp [h0, tr]
  · by_cases h60 : msec / 1000 / 60 < 60
    · have hpos : msec / 1000 / 60 > 0 := by omega
      simp [h0, h60, hpos]
    · simp [h0, h60]

/-- C4 at concrete inputs: 45 minutes after creation on the same day the label
reads "45 minutes ago", 130 minutes after it reads "2 hours ago", and 59 seconds
after it reads "Just now". -/
theorem onRefreshTime_same_day_witness :
    (mailBubble.onRefreshTime (clockAfter 2700000 0)).m_appTimeLabel.text = "45 minutes ago" ∧
      (mailBubble.onRefreshTime (clockAfter 7800000 0)).m_appTimeLabel.text = "2 hours ago" ∧
      (mailBubble.onRefreshTime (clockAfter 59000 0)).m_appTimeLabel.text = "Just now" :=
  ⟨(onRefreshTime_same_day (clockAfter 2700000 0) mailBubble mailEntity 2700000 rfl
      (by decide) (by decide) rfl (by decide)).trans (by decide),
    (onRefreshTime_same_day (clockAfter 7800000 0) mailBubble mailEntity 7800000 rfl
      (by decide) (by decide) rfl (by decide)).trans (by decide),
    (onRefreshTime_same_day (clockAfter 59000 0) mailBubble mailEntity 59000 rfl
      (by decide) (by decide) rfl (by decide)).trans (by decide)⟩

/-- C5, claim refuted as stated: one calendar day after creation the label is
"Yesterday", two spaces, and the creation time; it is not "Yesterday", a single
space, and the creation time. -/
theorem onRefreshTime_yesterday_has_two_spaces :
    (clockAfter 86400000 1).daysTo mailEntity.ctime = 1 ∧
      (clockAfter 86400000 1).toString mailEntity.ctime "hh:mm" = "22:13" ∧
      (mailBubble.onRefreshTime (clockAfter 86400000 1)).m_appTimeLabel.text
        = "Yesterday  22:13" ∧
      (mailBubble.onRefreshTime (clockAfter 86400000 1)).m_appTimeLabel.text
        ≠ "Yesterday" ++ " " ++ "22:13" := by
  decide

/-- C5, amended: when the elapsed time `msec` is not negative and the calendar-day
difference `elapsedDay` is at least 1, `onRefreshTime` sets the time label,
whatever the minute count, to "Yesterday " followed by a space and the creation
time as "hh:mm" (two spaces in all) when `elapsedDay = 1`, to the creation time
as "ddd hh:mm" when `2 ≤ elapsedDay ≤ 6`, and to the creation date as
"yyyy/MM/dd" when `elapsedDay ≥ 7`. -/
theorem onRefreshTime_earlier_day (clk : Clock) (s : BubbleItem) (e : NotificationEntity)
    (msec : Int) (hent : s.m_entity = some e)
    (hmsec : toInt64 (clk.currentMSecsSinceEpoch - e.ctime) = msec)
    (hnonneg : 0 ≤ msec) (hday : 1 ≤ clk.daysTo e.ctime) :
    (s.onRefreshTime clk).m_appTimeLabel.text =
      if clk.daysTo e.ctime = 1 then "Yesterday " ++ " " ++ clk.toString e.ctime "hh:mm"
      else if clk.daysTo e.ctime ≤ 6 then clk.toString e.ctime "ddd hh:mm"
      else clk.toString e.ctime "yyyy/MM/dd" := by
  rw [onRefreshTime_text clk s e hent (by rw [hmsec]; exact hnonneg)]
  have hne : ¬ clk.daysTo e.ctime = 0 := by omega
  rw [if_neg hne]
  by_cases h1 : clk.daysTo e.ctime = 1
  · simp [h1, tr]
  · by_cases h6 : clk.daysTo e.ctime ≤ 6
    · have h2 : clk.daysTo e.ctime ≥ 2 := by omega
      have h7 : clk.daysTo e.ctime < 7 := by omega
      have h12 : ¬ (clk.daysTo e.ctime ≥ 1 ∧ clk.daysTo e.ctime < 2) := by omega
      simp only [h1, h6, h12, h2, h7, if_false, if_true, and_self]
    · have h12 : ¬ (clk.daysTo e.ctime ≥ 1 ∧ clk.daysTo e.ctime < 2) := by omega
      have h27 : ¬ (clk.daysTo e.ctime ≥ 2 ∧ clk.daysTo e.ctime < 7) := by omega
      simp only [h1, h6, h12, h27, if_false]

/-- C5, amended claim at concrete inputs: the labels one, four and ten calendar
days after creation. -/
theorem onRefreshTime_earlier_day_witness :
    (mailBubble.onRefreshTime (clockAfter 86400000 1)).m_appTimeLabel.text
        = "Yesterday  22:13" ∧
      (mailBubble.onRefreshTime (clockAfter 345600000 4)).m_appTimeLabel.text = "Tue 22:13" ∧
      (mailBubble.onRefreshTime (clockAfter 864000000 10)).m_appTimeLabel.text = "2023/11/14" :=
  ⟨(onRefreshTime_earlier_day (clockAfter 86400000 1) mailBubble mailEntity 86400000 rfl
      (by decide) (by decide) (by decide)).trans (by decide),
    (onRefreshTime_earlier_day (clockAfter 345600000 4) mailBubble mailEntity 345600000 rfl
      (by decide) (by decide) (by decide)).trans (by decide),
    (onRefreshTime_earlier_day (clockAfter 864000000 10) mailBubble mailEntity 864000000 rfl
      (by decide) (by decide) (by decide)).trans (by decide)⟩

/-! ## Pinning -/

/-- C6: over every model whose `isAppTopping(a)` after `setAppTopping(a, v)` is
`v`, whose `setAppTopping(a, v)` leaves the pinned state of the other apps as it
is, and whose `refreshAppTopping` changes no pinned state, and for every bubble
with a model set: one call of `toggleAppTopping` negates `isAppTopping` of the
bubble's app, a second call restores the value before the first, and the pinned
state of every other app is unchanged by both. -/
theorem toggleAppTopping_twice_restores {M : Type} (ops : NotifyModelOps M) (b : BubbleBase)
    (m : M)
    (hset : ∀ (x : M) (a : String) (v : Bool),
      ops.isAppTopping (ops.setAppTopping x a v) a = v)
    (hframe : ∀ (x : M) (a c : String) (v : Bool), c ≠ a →
      ops.isAppTopping (ops.setAppTopping x a v) c = ops.isAppTopping x c)
    (hrefresh : ∀ (x : M) (a : String),
      ops.isAppTopping (ops.refreshAppTopping x) a = ops.isAppTopping x a)
    (hmodel : b.m_model = true) :
    ∃ m1 m2 : M,
      BubbleBase.toggleAppTopping ops b m = some m1 ∧
      BubbleBase.toggleAppTopping ops b m1 = some m2 ∧
      ops.isAppTopping m1 b.m_appName = !ops.isAppTopping m b.m_appName ∧
      ops.isAppTopping m2 b.m_appName = ops.isAppTopping m b.m_appName ∧
      ∀ c : String, c ≠ b.m_appName →
        ops.isAppTopping m1 c = ops.isAppTopping m c ∧
        ops.isAppTopping m2 c = ops.isAppTopping m c := by
  refine ⟨ops.refreshAppTopping (ops.setAppTopping m b.m_appName (!ops.isAppTopping m b.m_appName)),
    ops.refreshAppTopping (ops.setAppTopping
      (ops.refreshAppTopping (ops.setAppTopping m b.m_appName (!ops.isAppTopping m b.m_appName)))
      b.m_appName
      (!ops.isAppTopping
        (ops.refreshAppTopping
          (ops.setAppTopping m b.m_appName (!ops.isAppTopping m b.m_appName)))
        b.m_appName)), ?_, ?_, ?_, ?_, ?_⟩
  · simp [BubbleBase.toggleAppTopping, hmodel]
  · simp [BubbleBase.toggleAppTopping, hmodel]
  · rw [hrefresh, hset]
  · rw [hrefresh, hset, hrefresh, hset, Bool.not_not]
  · intro c hc
    refine ⟨?_, ?_⟩
    · rw [hrefresh, hframe _ _ _ _ hc]
    · rw [hrefresh, hframe _ _ _ _ hc, hrefresh, hframe _ _ _ _ hc]

/-- C6 at a concrete input: the pinned-app set holding "music", toggled by the
bubble of the app "mail". -/
theorem toggleAppTopping_twice_restores_witness :
    ∃ m1 m2 : List String,
      BubbleBase.toggleAppTopping pinnedSet mailBubble.toBubbleBase ["music"] = some m1 ∧
      BubbleBase.toggleAppTopping pinnedSet mailBubble.toBubbleBase m1 = some m2 ∧
      pinnedSet.isAppTopping m1 mailBubble.toBubbleBase.m_appName
        = !pinnedSet.isAppTopping ["music"] mailBubble.toBubbleBase.m_appName ∧
      pinnedSet.isAppTopping m2 mailBubble.toBubbleBase.m_appName
        = pinnedSet.isAppTopping ["music"] mailBubble.toBubbleBase.m_appName ∧
      ∀ c : String, c ≠ mailBubble.toBubbleBase.m_appName →
        pinnedSet.isAppTopping m1 c = pinnedSet.isAppTopping ["music"] c ∧
        pinnedSet.isAppTopping m2 c = pinnedSet.isAppTopping ["music"] c :=
  toggleAppTopping_twice_restores pinnedSet mailBubble.toBubbleBase ["music"]
    (by intro x a v; cases v <;> simp [pinnedSet])
    (by intro x a c v hc; cases v <;> simp [pinnedSet, hc])
    (by intro x a; rfl)
    (by decide)

/-! ## Focus and hover -/

/-- C7: the value `eventFilter` emits through `focusStateChanged`. On a FocusIn or
FocusOut event watched on the bubble, its settings button or its close button it
is `realHasFocus`, which is true exactly when at least one of the three has
focus; on an Enter event watched on the bubble it is true and on a Leave event
watched on the bubble it is false, whatever the focus flags are, and no Enter
event makes it emit false, no Leave event true. -/
theorem eventFilter_emits_aggregated_focus (s : BubbleItem) (watched : Widget) :
    ((watched = Widget.self ∨ watched = Widget.settingBtn ∨ watched = Widget.closeButton) →
        s.eventFilterEmits watched EventType.FocusIn = some s.realHasFocus ∧
        s.eventFilterEmits watched EventType.FocusOut = some s.realHasFocus) ∧
      (s.realHasFocus = true ↔
        (s.hasFocus = true ∨ s.m_settingBtn.hasFocus = true ∨ s.m_closeButton.hasFocus = true)) ∧
      s.eventFilterEmits Widget.self EventType.Enter = some true ∧
      s.eventFilterEmits Widget.self EventType.Leave = some false ∧
      s.eventFilterEmits watched EventType.Enter ≠ some false ∧
      s.eventFilterEmits watched EventType.Leave ≠ some true := by
  refine ⟨?_, ?_, ?_, ?_, ?_, ?_⟩
  · intro h
    simp [BubbleItem.eventFilterEmits, h]
  · simp [BubbleItem.realHasFocus, or_assoc]
  · simp [BubbleItem.eventFilterEmits]
  · simp [BubbleItem.eventFilterEmits]
  · by_cases h : watched = Widget.self <;> simp [BubbleItem.eventFilterEmits, h]
  · by_cases h : watched = Widget.self <;> simp [BubbleItem.eventFilterEmits, h]

/-- C7 at a concrete input: with focus on the close button only, a FocusOut event
watched on the settings button emits true, and a Leave event on the bubble
emits false. -/
theorem eventFilter_emits_aggregated_focus_witness :
    (({ mailBubble with
          m_closeButton := { visible := true, hasFocus := true, tabFocus := true } }
        ).eventFilterEmits Widget.settingBtn EventType.FocusIn = some true ∧
      ({ mailBubble with
          m_closeButton := { visible := true, hasFocus := true, tabFocus := true } }
        ).eventFilterEmits Widget.settingBtn EventType.FocusOut = some true) ∧
      ({ mailBubble with
          m_closeButton := { visible := true, hasFocus := true, tabFocus := true } }
        ).eventFilterEmits Widget.self EventType.Leave = some false :=
  ⟨(eventFilter_emits_aggregated_focus
      { mailBubble with
        m_closeButton := { visible := true, hasFocus := true, tabFocus := true } }
      Widget.settingBtn).1 (Or.inr (Or.inl rfl)),
    (eventFilter_emits_aggregated_focus
      { mailBubble with
        m_closeButton := { visible := true, hasFocus := true, tabFocus := true } }
      Widget.settingBtn).2.2.2.1⟩

/-- C8, claim refuted as stated: on a bubble whose `m_showContent` is false,
`onFocusStateChanged(true)` leaves the close and settings buttons hidden, the
time label visible and the background panel without focus. -/
theorem onFocusStateChanged_ignored_without_content :
    (hiddenContentBubble.onFocusStateChanged true).m_closeButton.visible = false ∧
      (hiddenContentBubble.onFocusStateChanged true).m_settingBtn.visible = false ∧
      (hiddenContentBubble.onFocusStateChanged true).m_appTimeLabel.visible = true ∧
      (hiddenContentBubble.onFocusStateChanged true).m_bgWidget.m_hasFocus = false := by
  decide

/-- C8, amended: in every state whose `m_showContent` is true, after
`onFocusStateChanged(focus)` the close button and the settings button are
visible exactly when `focus` is true, the time label is visible exactly when
`focus` is false, and the background panel's focus flag equals `focus`. -/
theorem onFocusStateChanged_sets_visibility (s : BubbleItem) (focus : Bool)
    (hshow : s.m_showContent = true) :
    (s.onFocusStateChanged focus).m_closeButton.visible = focus ∧
      (s.onFocusStateChanged focus).m_settingBtn.visible = focus ∧
      (s.onFocusStateChanged focus).m_appTimeLabel.visible = !focus ∧
      (s.onFocusStateChanged focus).m_bgWidget.m_hasFocus = focus := by
  unfold BubbleItem.onFocusStateChanged
  rw [if_pos hshow]
  refine ⟨rfl, rfl, rfl, ?_⟩
  show (s.m_bgWidget.setHasFocus focus).m_hasFocus = focus
  unfold AlphaWidget.setHasFocus
  split
  · assumption
  · rfl

/-- C8, amended claim at a concrete input: focus arriving on `mailBubble` shows
both buttons, hides the time label and marks the background panel. -/
theorem onFocusStateChanged_sets_visibility_witness :
    (mailBubble.onFocusStateChanged true).m_closeButton.visible = true ∧
      (mailBubble.onFocusStateChanged true).m_settingBtn.visible = true ∧
      (mailBubble.onFocusStateChanged true).m_appTimeLabel.visible = !true ∧
      (mailBubble.onFocusStateChanged true).m_bgWidget.m_hasFocus = true :=
  onFocusStateChanged_sets_visibility mailBubble true (by decide)

end DdeWidgets
